import Mathlib

/-!
# vkLab samples: HelloVulkan and AdvancedExample

A shallow embedding of the two sample programs of the repository
(`src/samples/HelloVulkan/HelloVulkan.cpp` and
`src/samples/AdvancedExample/AdvancedExample.cpp`).

* Mesh constants are embedded literally.  Every vertex literal of the sources
  (`0.0f`, `0.5f`, `1.0f`, `2.0f` and their negations) is a dyadic number that
  a binary32 float holds exactly, so `ℚ` carries the exact values.
* Values computed at run time with `glm` and `<cmath>` are kept as the
  expression the source evaluates (`FExpr`, `Mat4`).
* `main` is a function from an environment (what the window and the renderer
  answer) to the trace of observable calls and the exit status.
-/

namespace VkLab

/-! ## Geometry data -/

/-- Three components, `glm::vec3`. -/
structure Vec3 (α : Type) where
  x : α
  y : α
  z : α
  deriving DecidableEq, Repr

/-- Two components, `glm::vec2`. -/
structure Vec2 (α : Type) where
  x : α
  y : α
  deriving DecidableEq, Repr

/-- The `Vertex` aggregate the samples initialise: position, colour, texture coordinate. -/
structure Vertex where
  pos : Vec3 ℚ
  color : Vec3 ℚ
  texCoord : Vec2 ℚ
  deriving DecidableEq, Repr

namespace HelloVulkan

/-- `vertices` of HelloVulkan.cpp, lines 20-25. -/
def vertices : List Vertex :=
  [ ⟨⟨-1/2, -1/2, 0⟩, ⟨1, 0, 0⟩, ⟨0, 0⟩⟩,
    ⟨⟨1/2, -1/2, 0⟩, ⟨0, 1, 0⟩, ⟨1, 0⟩⟩,
    ⟨⟨1/2, 1/2, 0⟩, ⟨0, 0, 1⟩, ⟨1, 1⟩⟩,
    ⟨⟨-1/2, 1/2, 0⟩, ⟨1, 1, 1⟩, ⟨0, 1⟩⟩ ]

/-- `indices` of HelloVulkan.cpp, lines 27-30. -/
def indices : List Nat :=
  [ 0, 1, 2,
    2, 3, 0 ]

end HelloVulkan

namespace AdvancedExample

/-- `cubeVertices` of AdvancedExample.cpp, lines 22-58. -/
def cubeVertices : List Vertex :=
  [ -- front
    ⟨⟨-1/2, -1/2, 1/2⟩, ⟨1, 0, 0⟩, ⟨0, 0⟩⟩,
    ⟨⟨1/2, -1/2, 1/2⟩, ⟨1, 0, 0⟩, ⟨1, 0⟩⟩,
    ⟨⟨1/2, 1/2, 1/2⟩, ⟨1, 0, 0⟩, ⟨1, 1⟩⟩,
    ⟨⟨-1/2, 1/2, 1/2⟩, ⟨1, 0, 0⟩, ⟨0, 1⟩⟩,
    -- back
    ⟨⟨-1/2, -1/2, -1/2⟩, ⟨0, 1, 0⟩, ⟨0, 0⟩⟩,
    ⟨⟨1/2, -1/2, -1/2⟩, ⟨0, 1, 0⟩, ⟨1, 0⟩⟩,
    ⟨⟨1/2, 1/2, -1/2⟩, ⟨0, 1, 0⟩, ⟨1, 1⟩⟩,
    ⟨⟨-1/2, 1/2, -1/2⟩, ⟨0, 1, 0⟩, ⟨0, 1⟩⟩,
    -- left
    ⟨⟨-1/2, -1/2, -1/2⟩, ⟨0, 0, 1⟩, ⟨0, 0⟩⟩,
    ⟨⟨-1/2, -1/2, 1/2⟩, ⟨0, 0, 1⟩, ⟨1, 0⟩⟩,
    ⟨⟨-1/2, 1/2, 1/2⟩, ⟨0, 0, 1⟩, ⟨1, 1⟩⟩,
    ⟨⟨-1/2, 1/2, -1/2⟩, ⟨0, 0, 1⟩, ⟨0, 1⟩⟩,
    -- right
    ⟨⟨1/2, -1/2, -1/2⟩, ⟨1, 1, 0⟩, ⟨0, 0⟩⟩,
    ⟨⟨1/2, -1/2, 1/2⟩, ⟨1, 1, 0⟩, ⟨1, 0⟩⟩,
    ⟨⟨1/2, 1/2, 1/2⟩, ⟨1, 1, 0⟩, ⟨1, 1⟩⟩,
    ⟨⟨1/2, 1/2, -1/2⟩, ⟨1, 1, 0⟩, ⟨0, 1⟩⟩,
    -- top
    ⟨⟨-1/2, 1/2, 1/2⟩, ⟨0, 1, 1⟩, ⟨0, 0⟩⟩,
    ⟨⟨1/2, 1/2, 1/2⟩, ⟨0, 1, 1⟩, ⟨1, 0⟩⟩,
    ⟨⟨1/2, 1/2, -1/2⟩, ⟨0, 1, 1⟩, ⟨1, 1⟩⟩,
    ⟨⟨-1/2, 1/2, -1/2⟩, ⟨0, 1, 1⟩, ⟨0, 1⟩⟩,
    -- bottom
    ⟨⟨-1/2, -1/2, -1/2⟩, ⟨1, 0, 1⟩, ⟨0, 0⟩⟩,
    ⟨⟨1/2, -1/2, -1/2⟩, ⟨1, 0, 1⟩, ⟨1, 0⟩⟩,
    ⟨⟨1/2, -1/2, 1/2⟩, ⟨1, 0, 1⟩, ⟨1, 1⟩⟩,
    ⟨⟨-1/2, -1/2, 1/2⟩, ⟨1, 0, 1⟩, ⟨0, 1⟩⟩ ]

/-- `cubeIndices` of AdvancedExample.cpp, lines 60-73. -/
def cubeIndices : List Nat :=
  [ 0, 1, 2, 2, 3, 0,
    4, 5, 6, 6, 7, 4,
    8, 9, 10, 10, 11, 8,
    12, 13, 14, 14, 15, 12,
    16, 17, 18, 18, 19, 16,
    20, 21, 22, 22, 23, 20 ]

/-- `planeVertices` of AdvancedExample.cpp, lines 76-81. -/
def planeVertices : List Vertex :=
  [ ⟨⟨-2, -1, -2⟩, ⟨1/2, 1/2, 1/2⟩, ⟨0, 0⟩⟩,
    ⟨⟨2, -1, -2⟩, ⟨1/2, 1/2, 1/2⟩, ⟨2, 0⟩⟩,
    ⟨⟨2, -1, 2⟩, ⟨1/2, 1/2, 1/2⟩, ⟨2, 2⟩⟩,
    ⟨⟨-2, -1, 2⟩, ⟨1/2, 1/2, 1/2⟩, ⟨0, 2⟩⟩ ]

/-- `planeIndices` of AdvancedExample.cpp, lines 83-85. -/
def planeIndices : List Nat :=
  [ 0, 1, 2, 2, 3, 0 ]

end AdvancedExample

/-! ## Reading a mesh -/

/-- The indexed triangle list: consecutive index triples; a trailing partial triple is dropped. -/
def triangles : List Nat → List (Nat × Nat × Nat)
  | a :: b :: c :: rest => (a, b, c) :: triangles rest
  | _ => []

/-- Position of vertex `i`, `none` when `i` is out of range. -/
def position (vs : List Vertex) (i : Nat) : Option (Vec3 ℚ) :=
  (vs.get? i).map Vertex.pos

/-- What the claims ask of an index buffer: every index is in range and the
length is a positive multiple of three. -/
def wellIndexed (vs : List Vertex) (is : List Nat) : Prop :=
  (∀ i ∈ is, i < vs.length) ∧ 0 < is.length ∧ is.length % 3 = 0

instance (vs : List Vertex) (is : List Nat) : Decidable (wellIndexed vs is) := by
  unfold wellIndexed; infer_instance

/-- Difference of two points. -/
def Vec3.sub (a b : Vec3 ℚ) : Vec3 ℚ := ⟨a.x - b.x, a.y - b.y, a.z - b.z⟩

/-- Cross product. -/
def Vec3.cross (a b : Vec3 ℚ) : Vec3 ℚ :=
  ⟨a.y * b.z - a.z * b.y, a.z * b.x - a.x * b.z, a.x * b.y - a.y * b.x⟩

/-- Dot product. -/
def Vec3.dot (a b : Vec3 ℚ) : ℚ := a.x * b.x + a.y * b.y + a.z * b.z

/-- Normal `(p_b - p_a) × (p_c - p_a)` of a triangle. -/
def triNormal (a b c : Vec3 ℚ) : Vec3 ℚ := (b.sub a).cross (c.sub a)

/-- Centroid of a triangle. -/
def triCentroid (a b c : Vec3 ℚ) : Vec3 ℚ :=
  ⟨(a.x + b.x + c.x) / 3, (a.y + b.y + c.y) / 3, (a.z + b.z + c.z) / 3⟩

/-- Dot product of the normal of the triangle with its centroid: positive
exactly when the normal points away from the origin.  `none` when an index is
out of range. -/
def outwardness (vs : List Vertex) (t : Nat × Nat × Nat) : Option ℚ :=
  match position vs t.1, position vs t.2.1, position vs t.2.2 with
  | some a, some b, some c => some ((triNormal a b c).dot (triCentroid a b c))
  | _, _, _ => none

/-- Signed area of the triangle projected on the plane of `x` and `y`. -/
def signedArea (a b c : Vec3 ℚ) : ℚ :=
  ((b.x - a.x) * (c.y - a.y) - (b.y - a.y) * (c.x - a.x)) / 2

/-- The positions of the triangles of an indexed mesh, in order. -/
def meshTriangles (vs : List Vertex) (is : List Nat) : List (Vec3 ℚ × Vec3 ℚ × Vec3 ℚ) :=
  (triangles is).filterMap fun t =>
    match position vs t.1, position vs t.2.1, position vs t.2.2 with
    | some a, some b, some c => some (a, b, c)
    | _, _, _ => none

section Plane
variable {K : Type} [LinearOrderedField K]

/-- The point `p` of the plane lies in the closed triangle `a b c`. -/
def InTriangle (a b c : Vec3 ℚ) (p : Vec2 K) : Prop :=
  ∃ u v w : K, 0 ≤ u ∧ 0 ≤ v ∧ 0 ≤ w ∧ u + v + w = 1 ∧
    p.x = u * (a.x : K) + v * (b.x : K) + w * (c.x : K) ∧
    p.y = u * (a.y : K) + v * (b.y : K) + w * (c.y : K)

/-- The point `p` of the plane lies on the closed segment `a b`. -/
def OnSegment (a b : Vec3 ℚ) (p : Vec2 K) : Prop :=
  ∃ s t : K, 0 ≤ s ∧ 0 ≤ t ∧ s + t = 1 ∧
    p.x = s * (a.x : K) + t * (b.x : K) ∧
    p.y = s * (a.y : K) + t * (b.y : K)

/-- The closed square from (-0.5,-0.5) to (0.5,0.5). -/
def InUnitSquare (p : Vec2 K) : Prop :=
  -(1/2) ≤ p.x ∧ p.x ≤ 1/2 ∧ -(1/2) ≤ p.y ∧ p.y ≤ 1/2

end Plane

/-! ## Values computed at run time -/

/-- A `float` value, kept as the expression the source evaluates. -/
inductive FExpr where
  /-- A float literal, by its decimal value. -/
  | lit (q : ℚ)
  /-- The `time` local of loop iteration `frame`: seconds since `startTime`. -/
  | time (frame : Nat)
  | mul (a b : FExpr)
  | add (a b : FExpr)
  | div (a b : FExpr)
  | sin (a : FExpr)
  | cos (a : FExpr)
  /-- Degrees to radians, `glm::radians`. -/
  | radians (a : FExpr)
  deriving DecidableEq, Repr

/-- A `glm::mat4` value, kept as the expression the source evaluates. -/
inductive Mat4 where
  /-- The identity, `glm::mat4(1.0f)`. -/
  | identity
  | translate (m : Mat4) (v : Vec3 FExpr)
  | rotate (m : Mat4) (angle : FExpr) (axis : Vec3 FExpr)
  | scale (m : Mat4) (v : Vec3 FExpr)
  | lookAt (eye center up : Vec3 FExpr)
  | perspective (fovy aspect near far : FExpr)
  /-- The update `m[1][1] *= -1`. -/
  | flipY (m : Mat4)
  deriving DecidableEq, Repr

/-- A vector of three float literals, `glm::vec3(a, b, c)`. -/
def vec3 (a b c : ℚ) : Vec3 FExpr := ⟨.lit a, .lit b, .lit c⟩

/-- The fields of `UniformBufferObject` the samples assign. -/
structure UniformBufferObject where
  model : Mat4
  view : Mat4
  proj : Mat4
  deriving DecidableEq, Repr

/-- The fields of `VulkanConfig` the samples assign. -/
structure VulkanConfig where
  applicationName : String
  windowWidth : Nat
  windowHeight : Nat
  enableValidationLayers : Bool
  deriving DecidableEq, Repr

/-- The arguments of one `Renderer::draw` call.  `texturePath` is `none` when
the call leaves the fourth argument to its default. -/
structure DrawCall where
  vertices : List Vertex
  indices : List Nat
  ubo : UniformBufferObject
  texturePath : Option String
  deriving DecidableEq, Repr

/-! ## Traces -/

/-- How a call into the renderer ends: it returns, it throws an exception
derived from `std::exception`, or it throws anything else. -/
inductive Outcome where
  | returned
  | threwStd
  | threwOther
  deriving DecidableEq, Repr

/-- The calls a sample makes, in program order.  The implicit destructor of
`renderer` is not traced. -/
inductive Event where
  | glfwInit
  | glfwWindowHint (hint value : String)
  | glfwCreateWindow (width height : Nat) (title : String)
  /-- The constructor, `Renderer renderer(config, window)`. -/
  | construct (config : VulkanConfig) (o : Outcome)
  /-- The call `renderer.initialize()`. -/
  | init (o : Outcome)
  | glfwWindowShouldClose (result : Bool)
  | glfwPollEvents
  | beginFrame (o : Outcome)
  | draw (d : DrawCall) (o : Outcome)
  | endFrame (o : Outcome)
  | waitIdle (o : Outcome)
  | cout (line : String)
  /-- The line the handler writes to `std::cerr`. -/
  | cerr
  | glfwDestroyWindow
  | glfwTerminate
  deriving DecidableEq, Repr

/-- How `main` ends.  `terminated` is `std::terminate` on an exception no handler matches. -/
inductive ExitStatus where
  | EXIT_SUCCESS
  | EXIT_FAILURE
  | terminated
  deriving DecidableEq, Repr

/-- The calls made so far and the exit status; `exit = none` while the frame loop is still running. -/
structure Result where
  trace : List Event
  exit : Option ExitStatus
  deriving DecidableEq, Repr

/-- What the outside answers: whether each renderer call returns, and what
`glfwWindowShouldClose` reports at each loop iteration. -/
structure Env where
  construct : Outcome
  init : Outcome
  shouldClose : Nat → Bool
  beginFrame : Nat → Outcome
  /-- Outcome of draw call `j` of iteration `i`. -/
  draw : Nat → Nat → Outcome
  endFrame : Nat → Outcome
  waitIdle : Outcome

/-- A statement outside the renderer, followed by the rest of the program. -/
def emit (e : Event) (k : Result) : Result := ⟨e :: k.trace, k.exit⟩

/-- A renderer call inside the `try` block, followed by the rest of the
program `k`.  When the call throws a `std::exception` control goes to the
handler, which writes to `std::cerr` and returns `EXIT_FAILURE`; any other
exception matches no handler. -/
def call (e : Outcome → Event) (o : Outcome) (k : Result) : Result :=
  match o with
  | .returned => ⟨e .returned :: k.trace, k.exit⟩
  | .threwStd => ⟨[e .threwStd, .cerr], some .EXIT_FAILURE⟩
  | .threwOther => ⟨[e .threwOther], some .terminated⟩

namespace HelloVulkan

/-- The `config` of HelloVulkan.cpp, lines 42-46. -/
def config : VulkanConfig := ⟨"Hello Vulkan", 800, 600, true⟩

/-- The `ubo` of loop iteration `i`, HelloVulkan.cpp lines 69-88. -/
def ubo (i : Nat) : UniformBufferObject where
  model := .rotate .identity (.mul (.time i) (.radians (.lit 90))) (vec3 0 0 1)
  view := .lookAt (vec3 2 2 2) (vec3 0 0 0) (vec3 0 0 1)
  proj := .flipY (.perspective (.radians (.lit 45)) (.div (.lit 800) (.lit 600))
    (.lit (1/10)) (.lit 10))

/-- The statements after the `try` block, lines 104-109. -/
def cleanup : Result :=
  ⟨[.glfwDestroyWindow, .glfwTerminate, .cout "程序正常退出。"], some .EXIT_SUCCESS⟩

/-- The frame loop from iteration `i` on, then `waitIdle` and the cleanup;
`fuel` bounds the number of iterations followed. -/
def loop (env : Env) : Nat → Nat → Result
  | 0, _ => ⟨[], none⟩
  | fuel + 1, i =>
    if env.shouldClose i then
      emit (.glfwWindowShouldClose true) <|
      call .waitIdle env.waitIdle cleanup
    else
      emit (.glfwWindowShouldClose false) <|
      emit .glfwPollEvents <|
      call .beginFrame (env.beginFrame i) <|
      call (.draw ⟨vertices, indices, ubo i, none⟩) (env.draw i 0) <|
      call .endFrame (env.endFrame i) <|
      loop env fuel (i + 1)

/-- The function `main` of HelloVulkan.cpp. -/
def main (env : Env) (fuel : Nat) : Result :=
  emit .glfwInit <|
  emit (.glfwWindowHint "GLFW_CLIENT_API" "GLFW_NO_API") <|
  emit (.glfwWindowHint "GLFW_RESIZABLE" "GLFW_TRUE") <|
  emit (.glfwCreateWindow 800 600 "VkCore - Hello Vulkan") <|
  call (.construct config) env.construct <|
  call .init env.init <|
  emit (.cout "VkCore 初始化成功！") <|
  emit (.cout "正在渲染旋转的四边形...") <|
  loop env fuel 0

end HelloVulkan

namespace AdvancedExample

/-- The struct `RenderObject`; the two mesh pointers are followed. -/
structure RenderObject where
  position : Vec3 FExpr
  rotation : Vec3 FExpr
  scale : Vec3 FExpr
  texturePath : String
  vertices : List Vertex
  indices : List Nat
  deriving DecidableEq, Repr

/-- The member `RenderObject::getModelMatrix`. -/
def RenderObject.getModelMatrix (o : RenderObject) : Mat4 :=
  let model := Mat4.identity
  let model := Mat4.translate model o.position
  let model := Mat4.rotate model o.rotation.x (vec3 1 0 0)
  let model := Mat4.rotate model o.rotation.y (vec3 0 1 0)
  let model := Mat4.rotate model o.rotation.z (vec3 0 0 1)
  let model := Mat4.scale model o.scale
  model

/-- The `config` of AdvancedExample.cpp, lines 116-120. -/
def config : VulkanConfig := ⟨"Advanced Example", 1200, 800, true⟩

/-- The initial `objects`, AdvancedExample.cpp lines 131-168. -/
def objects : List RenderObject :=
  [ ⟨vec3 0 0 0, vec3 0 0 0, vec3 (8/10) (8/10) (8/10), "", cubeVertices, cubeIndices⟩,
    ⟨vec3 (-15/10) (5/10) 0, vec3 0 0 0, vec3 (3/10) (3/10) (3/10), "", cubeVertices, cubeIndices⟩,
    ⟨vec3 (15/10) (5/10) 0, vec3 0 0 0, vec3 (3/10) (3/10) (3/10), "", cubeVertices, cubeIndices⟩,
    ⟨vec3 0 0 0, vec3 0 0 0, vec3 1 1 1, "", planeVertices, planeIndices⟩ ]

/-- The assignment `objects[n].rotation = r`. -/
def setRotation : List RenderObject → Nat → Vec3 FExpr → List RenderObject
  | [], _, _ => []
  | o :: os, 0, r => { o with rotation := r } :: os
  | o :: os, n + 1, r => o :: setRotation os n r

/-- The camera position of iteration `i`, lines 185-188. -/
def moveCamera (i : Nat) (cameraPos : Vec3 FExpr) : Vec3 FExpr :=
  let radius := FExpr.lit 5
  let cameraPos : Vec3 FExpr :=
    { cameraPos with x := FExpr.mul (.sin (.mul (.time i) (.lit (5/10)))) radius }
  let cameraPos : Vec3 FExpr :=
    { cameraPos with z := FExpr.mul (.cos (.mul (.time i) (.lit (5/10)))) radius }
  let cameraPos : Vec3 FExpr :=
    { cameraPos with
      y := FExpr.add (.lit 2) (.mul (.sin (.mul (.time i) (.lit (3/10)))) (.lit (5/10))) }
  cameraPos

/-- The rotation updates of iteration `i`, lines 191-193. -/
def spin (i : Nat) (objs : List RenderObject) : List RenderObject :=
  let t := FExpr.time i
  let objs := setRotation objs 0
    ⟨.mul t (.lit (5/10)), .mul t (.lit (8/10)), .mul t (.lit (3/10))⟩
  let objs := setRotation objs 1 ⟨.lit 0, .mul t (.lit (12/10)), .lit 0⟩
  let objs := setRotation objs 2 ⟨.mul t (.lit (7/10)), .lit 0, .mul t (.lit (9/10))⟩
  objs

/-- The `view` of an iteration, line 196. -/
def viewOf (cameraPos : Vec3 FExpr) : Mat4 :=
  .lookAt cameraPos (vec3 0 0 0) (vec3 0 1 0)

/-- The `proj` of an iteration, lines 197-198. -/
def proj : Mat4 :=
  .flipY (.perspective (.radians (.lit 60)) (.div (.lit 1200) (.lit 800)) (.lit (1/10)) (.lit 20))

/-- The draw call the loop body issues for `obj`, lines 205-210. -/
def drawOf (view proj : Mat4) (obj : RenderObject) : DrawCall :=
  ⟨obj.vertices, obj.indices, ⟨obj.getModelMatrix, view, proj⟩, some obj.texturePath⟩

/-- The loop `for (const auto& obj : objects)` of iteration `i`, from draw
call `j` on, followed by `k`. -/
def drawAll (env : Env) (i : Nat) (view proj : Mat4) :
    List RenderObject → Nat → Result → Result
  | [], _, k => k
  | obj :: rest, j, k =>
    call (.draw (drawOf view proj obj)) (env.draw i j) (drawAll env i view proj rest (j + 1) k)

/-- The statements after the `try` block, lines 224-228. -/
def cleanup : Result :=
  ⟨[.glfwDestroyWindow, .glfwTerminate, .cout "高级示例正常退出。"], some .EXIT_SUCCESS⟩

/-- The frame loop from iteration `i` on, then `waitIdle` and the cleanup;
`fuel` bounds the number of iterations followed. -/
def loop (env : Env) : Nat → Nat → List RenderObject → Vec3 FExpr → Result
  | 0, _, _, _ => ⟨[], none⟩
  | fuel + 1, i, objs, cameraPos =>
    if env.shouldClose i then
      emit (.glfwWindowShouldClose true) <|
      call .waitIdle env.waitIdle cleanup
    else
      let cameraPos := moveCamera i cameraPos
      let objs := spin i objs
      emit (.glfwWindowShouldClose false) <|
      emit .glfwPollEvents <|
      call .beginFrame (env.beginFrame i) <|
      drawAll env i (viewOf cameraPos) proj objs 0 <|
      call .endFrame (env.endFrame i) <|
      loop env fuel (i + 1) objs cameraPos

/-- The function `main` of AdvancedExample.cpp. -/
def main (env : Env) (fuel : Nat) : Result :=
  emit .glfwInit <|
  emit (.glfwWindowHint "GLFW_CLIENT_API" "GLFW_NO_API") <|
  emit (.glfwWindowHint "GLFW_RESIZABLE" "GLFW_TRUE") <|
  emit (.glfwCreateWindow 1200 800 "VkCore - Advanced Example") <|
  call (.construct config) env.construct <|
  call .init env.init <|
  emit (.cout "VkCore 高级示例启动！") <|
  emit (.cout "渲染多个旋转的立方体和地面...") <|
  loop env fuel 0 objects (vec3 4 3 4)

end AdvancedExample

/-! ## The facade state machine -/

/-- The member functions of the `Renderer` facade. -/
inductive Op where
  /-- The member `Renderer::initialize`. -/
  | init
  | beginFrame
  | draw
  | endFrame
  | waitIdle
  deriving DecidableEq, Repr

/-- Modelled from the spec: the states of the Frame Orchestrator (section 4.6);
`Renderer.h` is not among the sources. -/
inductive FacadeState where
  | Uninitialized
  | Ready
  | Recording
  | ShuttingDown
  | Destroyed
  deriving DecidableEq, Repr

/-- Modelled from the spec: the transitions of the Frame Orchestrator
(section 4.6), missing from the sources.  `none` when the call is not allowed
in the state. -/
def FacadeState.step : FacadeState → Op → Option FacadeState
  | .Uninitialized, .init => some .Ready
  | .Ready, .beginFrame => some .Recording
  | .Recording, .draw => some .Recording
  | .Recording, .endFrame => some .Ready
  | .Ready, .waitIdle => some .Ready
  | _, _ => none

/-- The facade call an event makes, with its outcome. -/
def Event.facadeCall : Event → Option (Op × Outcome)
  | .init o => some (.init, o)
  | .beginFrame o => some (.beginFrame, o)
  | .draw _ o => some (.draw, o)
  | .endFrame o => some (.endFrame, o)
  | .waitIdle o => some (.waitIdle, o)
  | _ => none

/-- The sequence of facade calls of a trace. -/
def rendererCalls (t : List Event) : List (Op × Outcome) := t.filterMap Event.facadeCall

/-- Whether every call of the sequence is allowed in the state it is made in.
A call that returns moves the facade by `FacadeState.step`; a call that
throws leaves it in `afterThrow s op`. -/
def accepts (afterThrow : FacadeState → Op → FacadeState) :
    FacadeState → List (Op × Outcome) → Bool
  | _, [] => true
  | s, (op, o) :: rest =>
    match s.step op with
    | none => false
    | some s' => accepts afterThrow (if o = .returned then s' else afterThrow s op) rest

/-- The event is a renderer operation (constructor or member call) that threw. -/
def Event.threw : Event → Bool
  | .construct _ o | .init o | .beginFrame o | .draw _ o | .endFrame o | .waitIdle o =>
    o != .returned
  | _ => false

/-- The event is a renderer operation: the constructor or a member call. -/
def Event.isRendererOp : Event → Bool
  | .construct _ _ | .init _ | .beginFrame _ | .draw _ _ | .endFrame _ | .waitIdle _ => true
  | _ => false

/-- The draw calls of each frame of a trace that has both its `beginFrame`
and its `endFrame`; `cur` holds the draw calls since the last `beginFrame`. -/
def frames : Option (List DrawCall) → List Event → List (List DrawCall)
  | _, [] => []
  | _, .beginFrame _ :: rest => frames (some []) rest
  | cur, .draw d _ :: rest => frames (cur.map (· ++ [d])) rest
  | some ds, .endFrame _ :: rest => ds :: frames none rest
  | none, .endFrame _ :: rest => frames none rest
  | cur, _ :: rest => frames cur rest

/-- Monitor: after an event that threw, no renderer operation follows. -/
def quietAfterThrow : List Event → Bool
  | [] => true
  | e :: rest => (!e.threw || rest.all fun x => !x.isRendererOp) && quietAfterThrow rest

/-- Monitor: `glfwDestroyWindow` is only called once a `waitIdle` has
returned; `idle` tells whether one has returned already. -/
def idleBeforeDestroy : Bool → List Event → Bool
  | _, [] => true
  | idle, .glfwDestroyWindow :: rest => idle && idleBeforeDestroy idle rest
  | _, .waitIdle .returned :: rest => idleBeforeDestroy true rest
  | idle, _ :: rest => idleBeforeDestroy idle rest

/-- The event belongs to a frame: `beginFrame`, `draw` or `endFrame`. -/
def Event.inFrame : Event → Bool
  | .beginFrame _ | .draw _ _ | .endFrame _ => true
  | _ => false

/-- An environment in which every renderer call returns and the window is
asked to close once `n` frames are drawn. -/
def Env.closeAfter (n : Nat) : Env where
  construct := .returned
  init := .returned
  shouldClose := fun i => decide (n ≤ i)
  beginFrame := fun _ => .returned
  draw := fun _ _ => .returned
  endFrame := fun _ => .returned
  waitIdle := .returned

/-! ## The frame synchronization ring -/

namespace Ring

/-- Modelled from the spec: what the submitting thread and the GPU do to the
Frame Synchronization Ring (sections 3, 4.3, 4.4 and 4.6); the renderer that
implements it is not among the sources. -/
inductive Action where
  /-- The facade call `beginFrame`: take the next slot and wait for it. -/
  | beginFrame
  /-- The facade call `draw`: upload the uniform block into the active slot. -/
  | draw
  /-- The facade call `endFrame`: submit the active slot. -/
  | endFrame
  /-- The GPU completes the submission of frame `frame` and signals its fence. -/
  | fenceSignaled (frame : Nat)
  deriving DecidableEq, Repr

/-- One write into a slot's uniform memory: the writing frame, the slot, and
the frames submitted from that slot whose fence is not signaled at that time. -/
structure Write where
  frame : Nat
  slot : Nat
  unsignaled : List Nat
  deriving DecidableEq, Repr

/-- Modelled from the spec: the ring of `slots` frame slots.  `recording` is
the open frame with its slot, `inFlight` the submitted frames (with their
slot) whose fence is not signaled yet, `writes` the log of uniform writes. -/
structure State where
  slots : Nat
  nextFrame : Nat
  recording : Option (Nat × Nat)
  inFlight : List (Nat × Nat)
  writes : List Write
  deriving DecidableEq, Repr

/-- All slots created, nothing submitted. -/
def init (slots : Nat) : State := ⟨slots, 0, none, [], []⟩

/-- Modelled from the spec: one action of the ring; `none` when the action
cannot happen in the state.  `beginFrame` takes the slots round-robin by frame
index and does not get past `waitForSlotReady` while a submission of the slot
is unsignaled. -/
def step (s : State) : Action → Option State
  | .beginFrame =>
    match s.recording with
    | some _ => none
    | none =>
      let slot := s.nextFrame % s.slots
      if s.inFlight.any (fun p => p.2 == slot) then none
      else some { s with recording := some (s.nextFrame, slot), nextFrame := s.nextFrame + 1 }
  | .draw =>
    match s.recording with
    | none => none
    | some (f, slot) =>
      some { s with
        writes := s.writes ++ [⟨f, slot, (s.inFlight.filter (fun p => p.2 == slot)).map (·.1)⟩] }
  | .endFrame =>
    match s.recording with
    | none => none
    | some (f, slot) => some { s with recording := none, inFlight := s.inFlight ++ [(f, slot)] }
  | .fenceSignaled f => some { s with inFlight := s.inFlight.filter (fun p => p.1 != f) }

/-- A sequence of actions; `none` when one of them cannot happen. -/
def run (s : State) : List Action → Option State
  | [] => some s
  | a :: rest =>
    match step s a with
    | none => none
    | some s' => run s' rest

end Ring

/-- An environment in which `renderer.initialize()` throws a `std::exception`. -/
def Env.initFails : Env := { Env.closeAfter 1 with init := .threwStd }

/-- An environment in which the draw call of the second frame throws a `std::exception`. -/
def Env.secondDrawFails : Env :=
  { Env.closeAfter 5 with draw := fun i _ => if i = 1 then .threwStd else .returned }

/-- A run of a ring of two slots: three frames, the first fence signaled before the third frame. -/
def Ring.demo : List Ring.Action :=
  [.beginFrame, .draw, .endFrame, .beginFrame, .draw, .endFrame, .fenceSignaled 0,
    .beginFrame, .draw, .draw, .endFrame]

/-- Either the program ran to its normal end, or the window was never released. -/
def CleanOrLeaked (r : Result) : Prop :=
  r.exit = some .EXIT_SUCCESS ∨
    (Event.glfwDestroyWindow ∉ r.trace ∧ Event.glfwTerminate ∉ r.trace)

/-- The invariant of the ring: no logged write met an unsignaled submission of
its slot, and the slot of the open frame has none. -/
def Ring.Inv (s : Ring.State) : Prop :=
  (∀ w ∈ s.writes, w.unsignaled = []) ∧
  ∀ f slot, s.recording = some (f, slot) → ∀ p ∈ s.inFlight, p.2 ≠ slot

/-- The draw calls HelloVulkan issues in loop iteration `n`, lines 91-93. -/
def HelloVulkan.frameAt (n : Nat) : List DrawCall :=
  [⟨HelloVulkan.vertices, HelloVulkan.indices, HelloVulkan.ubo n, none⟩]

/-- The draw calls AdvancedExample issues in loop iteration `n`, lines 185-211:
one per object of `objects` as the iteration has rotated them, under the
camera of the iteration. -/
def AdvancedExample.frameAt (n : Nat) : List DrawCall :=
  (spin n objects).map (drawOf (viewOf (moveCamera n (vec3 4 3 4))) proj)

/-! # Theorems -/

theorem quad_tri_inter {K : Type} [LinearOrderedField K] (p : Vec2 K) :
    (InTriangle ⟨-1/2, -1/2, 0⟩ ⟨1/2, -1/2, 0⟩ ⟨1/2, 1/2, 0⟩ p ∧
      InTriangle ⟨1/2, 1/2, 0⟩ ⟨-1/2, 1/2, 0⟩ ⟨-1/2, -1/2, 0⟩ p) ↔
    OnSegment ⟨-1/2, -1/2, 0⟩ ⟨1/2, 1/2, 0⟩ p := by
  unfold InTriangle OnSegment
  constructor
  · rintro ⟨⟨u, v, w, hu, hv, hw, hs, hx, hy⟩, ⟨u', v', w', hu', hv', hw', hs', hx', hy'⟩⟩
    push_cast at hx hy hx' hy'
    have hv0 : v = 0 := by linarith
    refine ⟨u, w, hu, hw, by linarith, ?_, ?_⟩
    · push_cast; linarith
    · push_cast; linarith
  · rintro ⟨s, t, hs, ht, hst, hx, hy⟩
    push_cast at hx hy
    refine ⟨⟨s, 0, t, hs, le_refl _, ht, by linarith, ?_, ?_⟩,
      ⟨t, 0, s, ht, le_refl _, hs, by linarith, ?_, ?_⟩⟩ <;>
      (push_cast; linarith)

theorem quad_tri_union {K : Type} [LinearOrderedField K] (p : Vec2 K) :
    (InTriangle ⟨-1/2, -1/2, 0⟩ ⟨1/2, -1/2, 0⟩ ⟨1/2, 1/2, 0⟩ p ∨
      InTriangle ⟨1/2, 1/2, 0⟩ ⟨-1/2, 1/2, 0⟩ ⟨-1/2, -1/2, 0⟩ p) ↔
    InUnitSquare p := by
  unfold InTriangle InUnitSquare
  constructor
  · rintro (⟨u, v, w, hu, hv, hw, hs, hx, hy⟩ | ⟨u, v, w, hu, hv, hw, hs, hx, hy⟩) <;>
      (push_cast at hx hy; refine ⟨?_, ?_, ?_, ?_⟩ <;> linarith)
  · rintro ⟨h1, h2, h3, h4⟩
    rcases le_total p.y p.x with h | h
    · left
      refine ⟨1/2 - p.x, p.x - p.y, 1/2 + p.y, by linarith, by linarith, by linarith,
        by ring, ?_, ?_⟩ <;> (push_cast; ring)
    · right
      refine ⟨1/2 + p.x, p.y - p.x, 1/2 - p.y, by linarith, by linarith, by linarith,
        by ring, ?_, ?_⟩ <;> (push_cast; ring)

theorem quad_corners (p : Vec3 ℚ) :
    p ∈ HelloVulkan.vertices.map Vertex.pos ↔
      (p.x = -1/2 ∨ p.x = 1/2) ∧ (p.y = -1/2 ∨ p.y = 1/2) ∧ p.z = 0 := by
  obtain ⟨x, y, z⟩ := p
  simp only [HelloVulkan.vertices, List.map, List.mem_cons, List.mem_singleton, Vec3.mk.injEq,
    List.not_mem_nil, or_false]
  constructor
  · rintro (⟨rfl, rfl, rfl⟩ | ⟨rfl, rfl, rfl⟩ | ⟨rfl, rfl, rfl⟩ | ⟨rfl, rfl, rfl⟩) <;> norm_num
  · rintro ⟨hx | hx, hy | hy, rfl⟩ <;> subst hx <;> subst hy <;> norm_num

/-- C8: the four vertex positions of the HelloVulkan mesh are exactly the four
corners of the square from (-0.5,-0.5) to (0.5,0.5) in the plane z = 0; its
two triangles (0,1,2) and (2,3,0) both have positive signed area, their areas
sum to 1, they meet exactly in the diagonal from vertex 0 to vertex 2, and
together they cover exactly the square. -/
theorem hello_quad_unit_square :
    (∀ p : Vec3 ℚ, p ∈ HelloVulkan.vertices.map Vertex.pos ↔
      (p.x = -1/2 ∨ p.x = 1/2) ∧ (p.y = -1/2 ∨ p.y = 1/2) ∧ p.z = 0) ∧
    (HelloVulkan.vertices.map Vertex.pos).Nodup ∧ HelloVulkan.vertices.length = 4 ∧
    triangles HelloVulkan.indices = [(0, 1, 2), (2, 3, 0)] ∧
    ∃ v0 v1 v2 v3 : Vec3 ℚ,
      HelloVulkan.vertices.map Vertex.pos = [v0, v1, v2, v3] ∧
      meshTriangles HelloVulkan.vertices HelloVulkan.indices = [(v0, v1, v2), (v2, v3, v0)] ∧
      0 < signedArea v0 v1 v2 ∧ 0 < signedArea v2 v3 v0 ∧
      |signedArea v0 v1 v2| + |signedArea v2 v3 v0| = 1 ∧
      (∀ (K : Type) [LinearOrderedField K] (p : Vec2 K),
        (InTriangle v0 v1 v2 p ∧ InTriangle v2 v3 v0 p) ↔ OnSegment v0 v2 p) ∧
      (∀ (K : Type) [LinearOrderedField K] (p : Vec2 K),
        (InTriangle v0 v1 v2 p ∨ InTriangle v2 v3 v0 p) ↔ InUnitSquare p) := by
  refine ⟨quad_corners, ?_, rfl, by decide, ?_⟩
  · simp [HelloVulkan.vertices]
    norm_num
  · refine ⟨⟨-1/2, -1/2, 0⟩, ⟨1/2, -1/2, 0⟩, ⟨1/2, 1/2, 0⟩, ⟨-1/2, 1/2, 0⟩, ?_, ?_, ?_, ?_, ?_,
      fun K _ p => quad_tri_inter p, fun K _ p => quad_tri_union p⟩
    · simp [HelloVulkan.vertices]
    · simp [meshTriangles, triangles, HelloVulkan.indices, position, HelloVulkan.vertices]
    · norm_num [signedArea]
    · norm_num [signedArea]
    · norm_num [signedArea, abs_of_pos]

@[simp] theorem rendererCalls_nil : rendererCalls [] = [] := rfl

@[simp] theorem emit_trace (e : Event) (k : Result) : (emit e k).trace = e :: k.trace := rfl

@[simp] theorem emit_exit (e : Event) (k : Result) : (emit e k).exit = k.exit := rfl

theorem rendererCalls_cons (e : Event) (t : List Event) :
    rendererCalls (e :: t) =
      match e.facadeCall with
      | some c => c :: rendererCalls t
      | none => rendererCalls t := by
  unfold rendererCalls
  rw [List.filterMap_cons]
  cases e.facadeCall <;> rfl

/-- The facade calls of a guarded call followed by `k`. -/
theorem rendererCalls_call (e : Outcome → Event) (op : Op)
    (he : ∀ o, (e o).facadeCall = some (op, o)) (o : Outcome) (k : Result) :
    rendererCalls (call e o k).trace =
      (op, o) :: (if o = .returned then rendererCalls k.trace else []) := by
  cases o <;> simp [call, rendererCalls_cons, he, show Event.cerr.facadeCall = none from rfl]

theorem accepts_call (aT : FacadeState → Op → FacadeState) (s s' : FacadeState)
    (e : Outcome → Event) (op : Op) (he : ∀ o, (e o).facadeCall = some (op, o))
    (hs : s.step op = some s') (o : Outcome) (k : Result)
    (hk : accepts aT s' (rendererCalls k.trace) = true) :
    accepts aT s (rendererCalls (call e o k).trace) = true := by
  rw [rendererCalls_call e op he]
  cases o <;> simp [accepts, hs, hk]

theorem hello_loop_accepts (aT : FacadeState → Op → FacadeState) (env : Env) (fuel i : Nat) :
    accepts aT .Ready (rendererCalls (HelloVulkan.loop env fuel i).trace) = true := by
  induction fuel generalizing i with
  | zero => rfl
  | succ n ih =>
    unfold HelloVulkan.loop
    split
    · rw [emit_trace, rendererCalls_cons]
      exact accepts_call aT .Ready .Ready Event.waitIdle .waitIdle (fun _ => rfl) rfl _ _ rfl
    · rw [emit_trace, rendererCalls_cons, emit_trace, rendererCalls_cons]
      refine accepts_call aT .Ready .Recording Event.beginFrame .beginFrame (fun _ => rfl) rfl _ _ ?_
      refine accepts_call aT .Recording .Recording (Event.draw _) .draw (fun _ => rfl) rfl _ _ ?_
      exact accepts_call aT .Recording .Ready Event.endFrame .endFrame (fun _ => rfl) rfl _ _ (ih _)

theorem hello_accepts (aT : FacadeState → Op → FacadeState) (env : Env) (fuel : Nat) :
    accepts aT .Uninitialized (rendererCalls (HelloVulkan.main env fuel).trace) = true := by
  unfold HelloVulkan.main
  simp only [emit_trace, rendererCalls_cons, Event.facadeCall]
  cases h : env.construct
  · simp only [call]
    rw [rendererCalls_cons]
    simp only [Event.facadeCall]
    refine accepts_call aT .Uninitialized .Ready Event.init .init (fun _ => rfl) rfl _ _ ?_
    simp only [emit_trace, rendererCalls_cons, Event.facadeCall]
    exact hello_loop_accepts aT env fuel 0
  · rfl
  · rfl

theorem drawAll_accepts (aT : FacadeState → Op → FacadeState) (env : Env) (i : Nat)
    (view proj : Mat4) (objs : List AdvancedExample.RenderObject) (j : Nat) (k : Result)
    (hk : accepts aT .Recording (rendererCalls k.trace) = true) :
    accepts aT .Recording
      (rendererCalls (AdvancedExample.drawAll env i view proj objs j k).trace) = true := by
  induction objs generalizing j with
  | nil => exact hk
  | cons o os ih =>
    unfold AdvancedExample.drawAll
    exact accepts_call aT .Recording .Recording (Event.draw _) .draw (fun _ => rfl) rfl _ _ (ih _)

theorem advanced_loop_accepts (aT : FacadeState → Op → FacadeState) (env : Env) (fuel i : Nat)
    (objs : List AdvancedExample.RenderObject) (cam : Vec3 FExpr) :
    accepts aT .Ready (rendererCalls (AdvancedExample.loop env fuel i objs cam).trace) = true := by
  induction fuel generalizing i objs cam with
  | zero => rfl
  | succ n ih =>
    unfold AdvancedExample.loop
    split
    · rw [emit_trace, rendererCalls_cons]
      exact accepts_call aT .Ready .Ready Event.waitIdle .waitIdle (fun _ => rfl) rfl _ _ rfl
    · simp only [emit_trace, rendererCalls_cons, Event.facadeCall]
      refine accepts_call aT .Ready .Recording Event.beginFrame .beginFrame (fun _ => rfl) rfl _ _ ?_
      refine drawAll_accepts aT env i _ _ _ 0 _ ?_
      exact accepts_call aT .Recording .Ready Event.endFrame .endFrame (fun _ => rfl) rfl _ _ (ih _ _ _)

theorem advanced_accepts (aT : FacadeState → Op → FacadeState) (env : Env) (fuel : Nat) :
    accepts aT .Uninitialized (rendererCalls (AdvancedExample.main env fuel).trace) = true := by
  unfold AdvancedExample.main
  simp only [emit_trace, rendererCalls_cons, Event.facadeCall]
  cases h : env.construct
  · simp only [call]
    rw [rendererCalls_cons]
    simp only [Event.facadeCall]
    refine accepts_call aT .Uninitialized .Ready Event.init .init (fun _ => rfl) rfl _ _ ?_
    simp only [emit_trace, rendererCalls_cons, Event.facadeCall]
    exact advanced_loop_accepts aT env fuel 0 _ _
  · rfl
  · rfl

/-- Under the strictest reading of a failed call (the facade is unusable
afterwards), an accepted sequence that starts outside `Uninitialized` never
calls `init`. -/
theorem accepts_no_init (s : FacadeState) (hs : s ≠ .Uninitialized)
    (calls : List (Op × Outcome))
    (h : accepts (fun _ _ => .Destroyed) s calls = true) :
    ∀ c ∈ calls, c.1 ≠ Op.init := by
  induction calls generalizing s with
  | nil => simp
  | cons c rest ih =>
    obtain ⟨op, o⟩ := c
    intro c hc
    rw [List.mem_cons] at hc
    unfold accepts at h
    cases hstep : s.step op with
    | none => simp [hstep] at h
    | some s' =>
      simp only [hstep] at h
      have hop : op ≠ Op.init := by
        intro hop; subst hop
        cases s <;> simp_all [FacadeState.step]
      have hs' : s' ≠ .Uninitialized := by
        intro hs'; subst hs'
        cases s <;> cases op <;> simp_all [FacadeState.step]
      rcases hc with rfl | hc
      · exact hop
      · refine ih _ ?_ h c hc
        split <;> simp [hs']

/-- An accepted sequence is empty or starts with the one `init` call it has. -/
theorem accepts_init_once (calls : List (Op × Outcome))
    (h : accepts (fun _ _ => .Destroyed) .Uninitialized calls = true) :
    calls = [] ∨ ∃ o rest, calls = (Op.init, o) :: rest ∧ ∀ c ∈ rest, c.1 ≠ Op.init := by
  cases calls with
  | nil => exact Or.inl rfl
  | cons c rest =>
    obtain ⟨op, o⟩ := c
    right
    unfold accepts at h
    cases op with
    | init =>
      simp only [FacadeState.step] at h
      refine ⟨o, rest, rfl, accepts_no_init _ ?_ rest h⟩
      split <;> simp
    | _ => simp [FacadeState.step] at h

/-- What the monitor `quietAfterThrow` establishes. -/
theorem quietAfterThrow_sound (t : List Event) (h : quietAfterThrow t = true)
    (pre : List Event) (e : Event) (post : List Event) (ht : t = pre ++ e :: post)
    (he : e.threw = true) : ∀ x ∈ post, x.isRendererOp = false := by
  induction pre generalizing t with
  | nil =>
    subst ht
    simp only [List.nil_append, quietAfterThrow, he, Bool.not_true, Bool.false_or,
      Bool.and_eq_true, List.all_eq_true, Bool.not_eq_true'] at h
    exact h.1
  | cons a pre ih =>
    subst ht
    simp only [List.cons_append, quietAfterThrow, Bool.and_eq_true] at h
    exact ih _ h.2 rfl

theorem quiet_emit (e : Event) (he : e.threw = false) (k : Result)
    (hk : quietAfterThrow k.trace = true) : quietAfterThrow (emit e k).trace = true := by
  simp [emit, quietAfterThrow, he, hk]

theorem quiet_call (e : Outcome → Event) (he : (e .returned).threw = false) (o : Outcome)
    (k : Result) (hk : quietAfterThrow k.trace = true) :
    quietAfterThrow (call e o k).trace = true := by
  cases o <;> simp [call, quietAfterThrow, he, hk, Event.isRendererOp]

theorem hello_loop_quiet (env : Env) (fuel i : Nat) :
    quietAfterThrow (HelloVulkan.loop env fuel i).trace = true := by
  induction fuel generalizing i with
  | zero => rfl
  | succ n ih =>
    unfold HelloVulkan.loop
    split
    · apply quiet_emit _ ?_ _ (quiet_call _ ?_ _ _ ?_) <;> rfl
    · apply quiet_emit _ ?_ _ (quiet_emit _ ?_ _ (quiet_call _ ?_ _ _ (quiet_call _ ?_ _ _
        (quiet_call _ ?_ _ _ (ih _))))) <;> rfl

theorem hello_quiet (env : Env) (fuel : Nat) :
    quietAfterThrow (HelloVulkan.main env fuel).trace = true := by
  unfold HelloVulkan.main
  apply quiet_emit _ ?_ _ (quiet_emit _ ?_ _ (quiet_emit _ ?_ _ (quiet_emit _ ?_ _
    (quiet_call _ ?_ _ _ (quiet_call _ ?_ _ _ (quiet_emit _ ?_ _ (quiet_emit _ ?_ _
      (hello_loop_quiet env fuel 0)))))))) <;> rfl

theorem drawAll_quiet (env : Env) (i : Nat) (view proj : Mat4)
    (objs : List AdvancedExample.RenderObject) (j : Nat) (k : Result)
    (hk : quietAfterThrow k.trace = true) :
    quietAfterThrow (AdvancedExample.drawAll env i view proj objs j k).trace = true := by
  induction objs generalizing j with
  | nil => exact hk
  | cons o os ih =>
    unfold AdvancedExample.drawAll
    exact quiet_call (Event.draw _) rfl _ _ (ih _)

theorem advanced_loop_quiet (env : Env) (fuel i : Nat)
    (objs : List AdvancedExample.RenderObject) (cam : Vec3 FExpr) :
    quietAfterThrow (AdvancedExample.loop env fuel i objs cam).trace = true := by
  induction fuel generalizing i objs cam with
  | zero => rfl
  | succ n ih =>
    unfold AdvancedExample.loop
    split
    · apply quiet_emit _ ?_ _ (quiet_call _ ?_ _ _ ?_) <;> rfl
    · apply quiet_emit _ ?_ _ (quiet_emit _ ?_ _ (quiet_call _ ?_ _ _ (drawAll_quiet env i _ _ _ 0 _
        (quiet_call _ ?_ _ _ (ih _ _ _))))) <;> rfl

theorem advanced_quiet (env : Env) (fuel : Nat) :
    quietAfterThrow (AdvancedExample.main env fuel).trace = true := by
  unfold AdvancedExample.main
  apply quiet_emit _ ?_ _ (quiet_emit _ ?_ _ (quiet_emit _ ?_ _ (quiet_emit _ ?_ _
    (quiet_call _ ?_ _ _ (quiet_call _ ?_ _ _ (quiet_emit _ ?_ _ (quiet_emit _ ?_ _
      (advanced_loop_quiet env fuel 0 _ _)))))))) <;> rfl

/-- What the monitor `idleBeforeDestroy` establishes. -/
theorem idleBeforeDestroy_sound (idle : Bool) (t : List Event)
    (h : idleBeforeDestroy idle t = true) (pre post : List Event)
    (ht : t = pre ++ Event.glfwDestroyWindow :: post) :
    idle = true ∨ Event.waitIdle .returned ∈ pre := by
  induction pre generalizing t idle with
  | nil =>
    subst ht
    simp only [List.nil_append, idleBeforeDestroy, Bool.and_eq_true] at h
    exact Or.inl h.1
  | cons a pre ih =>
    subst ht
    rw [List.cons_append] at h
    by_cases ha : a = Event.waitIdle .returned
    · exact Or.inr (by simp [ha])
    · by_cases hd : a = Event.glfwDestroyWindow
      · subst hd
        simp only [idleBeforeDestroy, Bool.and_eq_true] at h
        exact Or.inl h.1
      · have h' : idleBeforeDestroy idle (pre ++ Event.glfwDestroyWindow :: post) = true := by
          cases a <;> first
            | exact absurd rfl hd
            | (rename_i o; cases o <;> first | exact absurd rfl ha | simpa [idleBeforeDestroy] using h)
            | simpa [idleBeforeDestroy] using h
        rcases ih idle _ h' rfl with h1 | h1
        · exact Or.inl h1
        · exact Or.inr (List.mem_cons_of_mem _ h1)

theorem idle_cons (idle : Bool) (e : Event) (rest : List Event)
    (hd : e ≠ Event.glfwDestroyWindow) (hw : e ≠ Event.waitIdle .returned) :
    idleBeforeDestroy idle (e :: rest) = idleBeforeDestroy idle rest := by
  cases e <;> first
    | exact absurd rfl hd
    | (rename_i o; cases o <;> first | exact absurd rfl hw | simp [idleBeforeDestroy])
    | simp [idleBeforeDestroy]

theorem idle_emit (e : Event) (k : Result)
    (hd : e ≠ Event.glfwDestroyWindow) (hw : e ≠ Event.waitIdle .returned)
    (hk : idleBeforeDestroy false k.trace = true) :
    idleBeforeDestroy false (emit e k).trace = true := by
  rw [emit_trace, idle_cons _ _ _ hd hw, hk]

theorem idle_call (e : Outcome → Event) (o : Outcome) (k : Result)
    (hd : ∀ o, e o ≠ Event.glfwDestroyWindow) (hw : ∀ o, e o ≠ Event.waitIdle .returned)
    (hk : idleBeforeDestroy false k.trace = true) :
    idleBeforeDestroy false (call e o k).trace = true := by
  cases o <;> simp only [call] <;> rw [idle_cons _ _ _ (hd _) (hw _)]
  · exact hk
  · rfl
  · rfl

theorem idle_waitIdle (o : Outcome) (k : Result)
    (hk : idleBeforeDestroy true k.trace = true) :
    idleBeforeDestroy false (call Event.waitIdle o k).trace = true := by
  cases o
  · simpa [call, idleBeforeDestroy] using hk
  · rfl
  · rfl

theorem hello_loop_idle (env : Env) (fuel i : Nat) :
    idleBeforeDestroy false (HelloVulkan.loop env fuel i).trace = true := by
  induction fuel generalizing i with
  | zero => rfl
  | succ n ih =>
    unfold HelloVulkan.loop
    split
    · apply idle_emit _ _ ?_ ?_ (idle_waitIdle _ _ ?_) <;>
        first | rfl | (intro h; cases h)
    · apply idle_emit _ _ ?_ ?_ (idle_emit _ _ ?_ ?_ (idle_call _ _ _ ?_ ?_ (idle_call _ _ _ ?_ ?_
        (idle_call _ _ _ ?_ ?_ (ih _))))) <;>
      first | (intro o h; cases h) | (intro h; cases h)

theorem hello_idle (env : Env) (fuel : Nat) :
    idleBeforeDestroy false (HelloVulkan.main env fuel).trace = true := by
  unfold HelloVulkan.main
  apply idle_emit _ _ ?_ ?_ (idle_emit _ _ ?_ ?_ (idle_emit _ _ ?_ ?_ (idle_emit _ _ ?_ ?_
    (idle_call _ _ _ ?_ ?_ (idle_call _ _ _ ?_ ?_ (idle_emit _ _ ?_ ?_ (idle_emit _ _ ?_ ?_
      (hello_loop_idle env fuel 0)))))))) <;>
      first | (intro o h; cases h) | (intro h; cases h)

theorem drawAll_idle (env : Env) (i : Nat) (view proj : Mat4)
    (objs : List AdvancedExample.RenderObject) (j : Nat) (k : Result)
    (hk : idleBeforeDestroy false k.trace = true) :
    idleBeforeDestroy false (AdvancedExample.drawAll env i view proj objs j k).trace = true := by
  induction objs generalizing j with
  | nil => exact hk
  | cons o os ih =>
    unfold AdvancedExample.drawAll
    apply idle_call _ _ _ ?_ ?_ (ih _) <;> (intro o h; cases h)

theorem advanced_loop_idle (env : Env) (fuel i : Nat)
    (objs : List AdvancedExample.RenderObject) (cam : Vec3 FExpr) :
    idleBeforeDestroy false (AdvancedExample.loop env fuel i objs cam).trace = true := by
  induction fuel generalizing i objs cam with
  | zero => rfl
  | succ n ih =>
    unfold AdvancedExample.loop
    split
    · apply idle_emit _ _ ?_ ?_ (idle_waitIdle _ _ ?_) <;>
        first | rfl | (intro h; cases h)
    · apply idle_emit _ _ ?_ ?_ (idle_emit _ _ ?_ ?_ (idle_call _ _ _ ?_ ?_
        (drawAll_idle env i _ _ _ 0 _ (idle_call _ _ _ ?_ ?_ (ih _ _ _))))) <;>
      first | (intro o h; cases h) | (intro h; cases h)

theorem advanced_idle (env : Env) (fuel : Nat) :
    idleBeforeDestroy false (AdvancedExample.main env fuel).trace = true := by
  unfold AdvancedExample.main
  apply idle_emit _ _ ?_ ?_ (idle_emit _ _ ?_ ?_ (idle_emit _ _ ?_ ?_ (idle_emit _ _ ?_ ?_
    (idle_call _ _ _ ?_ ?_ (idle_call _ _ _ ?_ ?_ (idle_emit _ _ ?_ ?_ (idle_emit _ _ ?_ ?_
      (advanced_loop_idle env fuel 0 _ _)))))))) <;>
      first | (intro o h; cases h) | (intro h; cases h)

theorem frames_skip (cur : Option (List DrawCall)) (e : Event) (rest : List Event)
    (he : e.inFrame = false) : frames cur (e :: rest) = frames cur rest := by
  cases e <;> first | (cases cur <;> rfl) | simp [Event.inFrame] at he

theorem frames_call_other (cur : Option (List DrawCall)) (e : Outcome → Event) (o : Outcome)
    (k : Result) (he : ∀ o, (e o).inFrame = false)
    (f : List DrawCall) (hf : f ∈ frames cur (call e o k).trace) :
    f ∈ frames cur k.trace := by
  cases o <;> simp only [call, frames_skip _ _ _ (he _)] at hf
  · exact hf
  · simp [frames_skip, Event.inFrame, frames] at hf
  · simp [frames] at hf

theorem frames_call_waitIdle (cur : Option (List DrawCall)) (o : Outcome) (k : Result)
    (hk : frames cur k.trace = []) : frames cur (call Event.waitIdle o k).trace = [] := by
  cases o <;> simp [call, frames_skip, Event.inFrame, frames, hk]

theorem frames_call_beginFrame (cur : Option (List DrawCall)) (o : Outcome) (k : Result)
    (f : List DrawCall) (hf : f ∈ frames cur (call Event.beginFrame o k).trace) :
    f ∈ frames (some []) k.trace := by
  cases o <;> simp only [call, frames] at hf
  · exact hf
  · simp at hf
  · simp at hf

theorem frames_call_draw (acc : List DrawCall) (d : DrawCall) (o : Outcome) (k : Result)
    (f : List DrawCall) (hf : f ∈ frames (some acc) (call (Event.draw d) o k).trace) :
    f ∈ frames (some (acc ++ [d])) k.trace := by
  cases o <;> simp only [call, frames, Option.map_some'] at hf
  · exact hf
  · simp at hf
  · simp at hf

theorem frames_call_endFrame (ds : List DrawCall) (o : Outcome) (k : Result)
    (f : List DrawCall) (hf : f ∈ frames (some ds) (call Event.endFrame o k).trace) :
    f = ds ∨ f ∈ frames none k.trace := by
  cases o <;> simp only [call, frames, List.mem_cons] at hf
  · exact hf
  · simp [frames] at hf; exact Or.inl hf
  · simp at hf; exact Or.inl hf

theorem hello_loop_frames (env : Env) (fuel i : Nat) (f : List DrawCall)
    (hf : f ∈ frames none (HelloVulkan.loop env fuel i).trace) :
    ∃ n, f = [⟨HelloVulkan.vertices, HelloVulkan.indices, HelloVulkan.ubo n, none⟩] := by
  induction fuel generalizing i with
  | zero => simp [HelloVulkan.loop, frames] at hf
  | succ n ih =>
    unfold HelloVulkan.loop at hf
    split at hf
    · simp only [emit_trace, frames_skip, Event.inFrame] at hf
      rw [frames_call_waitIdle none env.waitIdle HelloVulkan.cleanup rfl] at hf
      simp at hf
    · simp only [emit_trace, frames_skip, Event.inFrame] at hf
      have h1 := frames_call_beginFrame _ _ _ _ hf
      have h2 := frames_call_draw _ _ _ _ _ h1
      rcases frames_call_endFrame _ _ _ _ h2 with h3 | h3
      · exact ⟨i, by simpa using h3⟩
      · exact ih _ h3

theorem hello_frames (env : Env) (fuel : Nat) (f : List DrawCall)
    (hf : f ∈ frames none (HelloVulkan.main env fuel).trace) :
    ∃ n, f = [⟨HelloVulkan.vertices, HelloVulkan.indices, HelloVulkan.ubo n, none⟩] := by
  unfold HelloVulkan.main at hf
  simp only [emit_trace, frames_skip, Event.inFrame] at hf
  have h1 := frames_call_other _ (Event.construct _) _ _ (fun _ => rfl) _ hf
  have h2 := frames_call_other _ Event.init _ _ (fun _ => rfl) _ h1
  simp only [emit_trace, frames_skip, Event.inFrame] at h2
  exact hello_loop_frames env fuel 0 f h2

namespace AdvancedExample

theorem spin_spin (i j : Nat) (objs : List RenderObject) :
    spin j (spin i objs) = spin j objs := by
  rcases objs with _ | ⟨a, _ | ⟨b, _ | ⟨c, rest⟩⟩⟩ <;> rfl

theorem moveCamera_const (i : Nat) (c c' : Vec3 FExpr) : moveCamera i c = moveCamera i c' := rfl

theorem drawAll_frames (env : Env) (i : Nat) (view proj : Mat4) (objs : List RenderObject)
    (j : Nat) (k : Result) (acc f : List DrawCall)
    (hf : f ∈ frames (some acc) (drawAll env i view proj objs j k).trace) :
    f ∈ frames (some (acc ++ objs.map (drawOf view proj))) k.trace := by
  induction objs generalizing j acc with
  | nil => simpa [drawAll] using hf
  | cons o os ih =>
    unfold drawAll at hf
    have h1 := frames_call_draw _ _ _ _ _ hf
    have h2 := ih _ _ h1
    simpa using h2

theorem loop_frames (env : Env) (fuel i : Nat) (objs : List RenderObject) (cam : Vec3 FExpr)
    (hobjs : ∀ n, spin n objs = spin n objects) (f : List DrawCall)
    (hf : f ∈ frames none (loop env fuel i objs cam).trace) :
    ∃ n, f = (spin n objects).map (drawOf (viewOf (moveCamera n (vec3 4 3 4))) proj) := by
  induction fuel generalizing i objs cam with
  | zero => simp [loop, frames] at hf
  | succ n ih =>
    unfold loop at hf
    split at hf
    · simp only [emit_trace, frames_skip, Event.inFrame] at hf
      rw [frames_call_waitIdle none env.waitIdle cleanup rfl] at hf
      simp at hf
    · simp only [emit_trace, frames_skip, Event.inFrame] at hf
      have h1 := frames_call_beginFrame _ _ _ _ hf
      have h2 := drawAll_frames _ _ _ _ _ _ _ _ _ h1
      rcases frames_call_endFrame _ _ _ _ h2 with h3 | h3
      · refine ⟨i, ?_⟩
        rw [h3, List.nil_append, hobjs i, moveCamera_const i cam (vec3 4 3 4)]
      · refine ih _ _ _ ?_ h3
        intro m
        rw [spin_spin, hobjs m]

theorem main_frames (env : Env) (fuel : Nat) (f : List DrawCall)
    (hf : f ∈ frames none (main env fuel).trace) :
    ∃ n, f = (spin n objects).map (drawOf (viewOf (moveCamera n (vec3 4 3 4))) proj) := by
  unfold main at hf
  simp only [emit_trace, frames_skip, Event.inFrame] at hf
  have h1 := frames_call_other _ (Event.construct _) _ _ (fun _ => rfl) _ hf
  have h2 := frames_call_other _ Event.init _ _ (fun _ => rfl) _ h1
  simp only [emit_trace, frames_skip, Event.inFrame] at h2
  exact loop_frames env fuel 0 objects _ (fun _ => rfl) f h2

end AdvancedExample

namespace Ring

theorem inv_init (slots : Nat) : Inv (init slots) := by
  constructor
  · intro w hw; simp [init] at hw
  · intro f slot h; simp [init] at h

theorem inv_step (s s' : State) (a : Action) (h : Inv s) (hs : step s a = some s') : Inv s' := by
  obtain ⟨hw, hr⟩ := h
  cases a with
  | beginFrame =>
    simp only [step] at hs
    cases hrec : s.recording with
    | some p => simp [hrec] at hs
    | none =>
      simp only [hrec] at hs
      split at hs
      · simp at hs
      · rename_i hfree
        simp only [Option.some.injEq] at hs
        subst hs
        refine ⟨hw, ?_⟩
        intro f slot hfs p hp hps
        simp only [Option.some.injEq, Prod.mk.injEq] at hfs
        apply hfree
        simp only [List.any_eq_true, beq_iff_eq]
        exact ⟨p, hp, by rw [hps, hfs.2]⟩
  | draw =>
    simp only [step] at hs
    cases hrec : s.recording with
    | none => simp [hrec] at hs
    | some p =>
      obtain ⟨f, slot⟩ := p
      simp only [hrec, Option.some.injEq] at hs
      subst hs
      refine ⟨?_, ?_⟩
      · intro w hw'
        simp only [List.mem_append, List.mem_singleton] at hw'
        rcases hw' with hw' | rfl
        · exact hw w hw'
        · simp only [List.map_eq_nil_iff, List.filter_eq_nil_iff, beq_iff_eq]
          exact fun p hp => hr f slot hrec p hp
      · intro f' slot' h'
        exact hr f' slot' (by simpa [hrec] using h')
  | endFrame =>
    simp only [step] at hs
    cases hrec : s.recording with
    | none => simp [hrec] at hs
    | some p =>
      obtain ⟨f, slot⟩ := p
      simp only [hrec, Option.some.injEq] at hs
      subst hs
      exact ⟨hw, fun f' slot' h' => by simp at h'⟩
  | fenceSignaled f =>
    simp only [step, Option.some.injEq] at hs
    subst hs
    refine ⟨hw, ?_⟩
    intro f' slot' h' p hp
    exact hr f' slot' h' p (List.mem_of_mem_filter hp)

theorem inv_run (s s' : State) (acts : List Action) (h : Inv s) (hs : run s acts = some s') :
    Inv s' := by
  induction acts generalizing s with
  | nil =>
    simp only [run, Option.some.injEq] at hs
    exact hs ▸ h
  | cons a rest ih =>
    simp only [run] at hs
    cases hstep : step s a with
    | none => simp [hstep] at hs
    | some s1 =>
      simp only [hstep] at hs
      exact ih s1 (inv_step s s1 a h hstep) hs

end Ring

/-! ### A failed renderer call and the window -/

theorem leak_emit (e : Event) (k : Result) (hd : e ≠ Event.glfwDestroyWindow)
    (ht : e ≠ Event.glfwTerminate) (hk : CleanOrLeaked k) : CleanOrLeaked (emit e k) := by
  rcases hk with h | ⟨h1, h2⟩
  · exact Or.inl h
  · refine Or.inr ⟨?_, ?_⟩ <;> simp only [emit_trace, List.mem_cons, not_or]
    · exact ⟨fun h => hd h.symm, h1⟩
    · exact ⟨fun h => ht h.symm, h2⟩

theorem leak_call (e : Outcome → Event) (o : Outcome) (k : Result)
    (hd : ∀ o, e o ≠ Event.glfwDestroyWindow) (ht : ∀ o, e o ≠ Event.glfwTerminate)
    (hk : CleanOrLeaked k) : CleanOrLeaked (call e o k) := by
  cases o
  · exact leak_emit (e .returned) k (hd _) (ht _) hk
  · refine Or.inr ⟨?_, ?_⟩ <;> simp only [call, List.mem_cons, List.mem_singleton, not_or,
      List.not_mem_nil, not_false_eq_true, and_true]
    · exact ⟨fun h => hd _ h.symm, by intro h; cases h⟩
    · exact ⟨fun h => ht _ h.symm, by intro h; cases h⟩
  · refine Or.inr ⟨?_, ?_⟩ <;> simp only [call, List.mem_singleton]
    · exact fun h => hd _ h.symm
    · exact fun h => ht _ h.symm

theorem hello_loop_leak (env : Env) (fuel i : Nat) :
    CleanOrLeaked (HelloVulkan.loop env fuel i) := by
  induction fuel generalizing i with
  | zero => exact Or.inr ⟨by simp [HelloVulkan.loop], by simp [HelloVulkan.loop]⟩
  | succ n ih =>
    unfold HelloVulkan.loop
    split
    · apply leak_emit _ _ ?_ ?_ (leak_call _ _ _ ?_ ?_ (Or.inl rfl)) <;>
        first | (intro o h; cases h) | (intro h; cases h)
    · apply leak_emit _ _ ?_ ?_ (leak_emit _ _ ?_ ?_ (leak_call _ _ _ ?_ ?_ (leak_call _ _ _ ?_ ?_
        (leak_call _ _ _ ?_ ?_ (ih _))))) <;>
      first | (intro o h; cases h) | (intro h; cases h)

theorem hello_leak (env : Env) (fuel : Nat) : CleanOrLeaked (HelloVulkan.main env fuel) := by
  unfold HelloVulkan.main
  apply leak_emit _ _ ?_ ?_ (leak_emit _ _ ?_ ?_ (leak_emit _ _ ?_ ?_ (leak_emit _ _ ?_ ?_
    (leak_call _ _ _ ?_ ?_ (leak_call _ _ _ ?_ ?_ (leak_emit _ _ ?_ ?_ (leak_emit _ _ ?_ ?_
      (hello_loop_leak env fuel 0)))))))) <;>
      first | (intro o h; cases h) | (intro h; cases h)

theorem drawAll_leak (env : Env) (i : Nat) (view proj : Mat4)
    (objs : List AdvancedExample.RenderObject) (j : Nat) (k : Result) (hk : CleanOrLeaked k) :
    CleanOrLeaked (AdvancedExample.drawAll env i view proj objs j k) := by
  induction objs generalizing j with
  | nil => exact hk
  | cons o os ih =>
    unfold AdvancedExample.drawAll
    apply leak_call _ _ _ ?_ ?_ (ih _) <;> (intro o h; cases h)

theorem advanced_loop_leak (env : Env) (fuel i : Nat)
    (objs : List AdvancedExample.RenderObject) (cam : Vec3 FExpr) :
    CleanOrLeaked (AdvancedExample.loop env fuel i objs cam) := by
  induction fuel generalizing i objs cam with
  | zero => exact Or.inr ⟨by simp [AdvancedExample.loop], by simp [AdvancedExample.loop]⟩
  | succ n ih =>
    unfold AdvancedExample.loop
    split
    · apply leak_emit _ _ ?_ ?_ (leak_call _ _ _ ?_ ?_ (Or.inl rfl)) <;>
        first | (intro o h; cases h) | (intro h; cases h)
    · apply leak_emit _ _ ?_ ?_ (leak_emit _ _ ?_ ?_ (leak_call _ _ _ ?_ ?_
        (drawAll_leak env i _ _ _ 0 _ (leak_call _ _ _ ?_ ?_ (ih _ _ _))))) <;>
      first | (intro o h; cases h) | (intro h; cases h)

theorem advanced_leak (env : Env) (fuel : Nat) :
    CleanOrLeaked (AdvancedExample.main env fuel) := by
  unfold AdvancedExample.main
  apply leak_emit _ _ ?_ ?_ (leak_emit _ _ ?_ ?_ (leak_emit _ _ ?_ ?_ (leak_emit _ _ ?_ ?_
    (leak_call _ _ _ ?_ ?_ (leak_call _ _ _ ?_ ?_ (leak_emit _ _ ?_ ?_ (leak_emit _ _ ?_ ?_
      (advanced_loop_leak env fuel 0 _ _)))))))) <;>
      first | (intro o h; cases h) | (intro h; cases h)

/-! ### The frames of a run, one by one -/

theorem call_returned (e : Outcome → Event) (k : Result) :
    (call e .returned k).trace = e .returned :: k.trace := rfl

theorem frames_after_throw (cur : Option (List DrawCall)) (e : Event) (he : e.inFrame = false) :
    frames cur [e] = [] := by
  rw [frames_skip _ _ _ he]; cases cur <;> rfl

theorem hello_loop_frames_exact (env : Env) (fuel i : Nat) :
    ∃ m, m ≤ fuel ∧
      frames none (HelloVulkan.loop env fuel i).trace =
        (List.range' i m).map HelloVulkan.frameAt := by
  induction fuel generalizing i with
  | zero => exact ⟨0, le_refl _, rfl⟩
  | succ n ih =>
    unfold HelloVulkan.loop
    split
    · refine ⟨0, Nat.zero_le _, ?_⟩
      simp only [emit_trace, frames_skip, Event.inFrame]
      rw [frames_call_waitIdle none env.waitIdle HelloVulkan.cleanup rfl]
      rfl
    · simp only [emit_trace, frames_skip, Event.inFrame]
      cases hb : env.beginFrame i
      · cases hd : env.draw i 0
        · cases he : env.endFrame i
          · obtain ⟨m, hm, hfr⟩ := ih (i + 1)
            refine ⟨m + 1, Nat.succ_le_succ hm, ?_⟩
            simp only [call_returned, frames, Option.map_some', List.nil_append, hfr]
            rfl
          · exact ⟨1, Nat.succ_le_succ (Nat.zero_le _), rfl⟩
          · exact ⟨1, Nat.succ_le_succ (Nat.zero_le _), rfl⟩
        · exact ⟨0, Nat.zero_le _, rfl⟩
        · exact ⟨0, Nat.zero_le _, rfl⟩
      · exact ⟨0, Nat.zero_le _, rfl⟩
      · exact ⟨0, Nat.zero_le _, rfl⟩

theorem hello_frames_exact (env : Env) (fuel : Nat) :
    ∃ m, m ≤ fuel ∧
      frames none (HelloVulkan.main env fuel).trace =
        (List.range m).map HelloVulkan.frameAt := by
  unfold HelloVulkan.main
  simp only [emit_trace, frames_skip, Event.inFrame]
  cases hc : env.construct
  · cases hi : env.init
    · simp only [call_returned, emit_trace, frames_skip, Event.inFrame]
      obtain ⟨m, hm, hfr⟩ := hello_loop_frames_exact env fuel 0
      exact ⟨m, hm, by rw [hfr, List.range_eq_range']⟩
    · exact ⟨0, Nat.zero_le _, rfl⟩
    · exact ⟨0, Nat.zero_le _, rfl⟩
  · exact ⟨0, Nat.zero_le _, rfl⟩
  · exact ⟨0, Nat.zero_le _, rfl⟩

theorem hello_loop_frames_closeAfter (k i : Nat) :
    frames none (HelloVulkan.loop (Env.closeAfter (i + k)) (k + 1) i).trace =
      (List.range' i k).map HelloVulkan.frameAt := by
  induction k generalizing i with
  | zero =>
    unfold HelloVulkan.loop
    simp [Env.closeAfter, emit, call, frames, HelloVulkan.cleanup]
  | succ k ih =>
    unfold HelloVulkan.loop
    have hclose : (Env.closeAfter (i + (k + 1))).shouldClose i = false := by
      simp [Env.closeAfter]
    have hnext : i + (k + 1) = (i + 1) + k := by omega
    simp only [hclose, Bool.false_eq_true, if_false, emit_trace, frames_skip, Event.inFrame]
    have h1 : (Env.closeAfter (i + (k + 1))).beginFrame i = .returned := rfl
    have h2 : (Env.closeAfter (i + (k + 1))).draw i 0 = .returned := rfl
    have h3 : (Env.closeAfter (i + (k + 1))).endFrame i = .returned := rfl
    simp only [h1, h2, h3, call_returned, frames, Option.map_some', List.nil_append]
    rw [hnext, ih (i + 1)]
    rfl

namespace AdvancedExample

theorem drawAll_frames_cases (env : Env) (i : Nat) (view proj : Mat4)
    (objs : List RenderObject) (j : Nat) (k : Result) (acc : List DrawCall) :
    frames (some acc) (drawAll env i view proj objs j k).trace =
        frames (some (acc ++ objs.map (drawOf view proj))) k.trace ∨
      frames (some acc) (drawAll env i view proj objs j k).trace = [] := by
  induction objs generalizing j acc with
  | nil => left; simp [drawAll]
  | cons o os ih =>
    unfold drawAll
    cases hd : env.draw i j
    · simp only [call_returned, frames, Option.map_some']
      rcases ih (j + 1) (acc ++ [drawOf view proj o]) with h | h
      · left; rw [h]; simp
      · right; exact h
    · right; rfl
    · right; rfl

theorem drawAll_frames_returned (env : Env) (i : Nat) (view proj : Mat4)
    (hd : ∀ j, env.draw i j = .returned)
    (objs : List RenderObject) (j : Nat) (k : Result) (acc : List DrawCall) :
    frames (some acc) (drawAll env i view proj objs j k).trace =
      frames (some (acc ++ objs.map (drawOf view proj))) k.trace := by
  induction objs generalizing j acc with
  | nil => simp [drawAll]
  | cons o os ih =>
    unfold drawAll
    rw [hd j]
    simp only [call_returned, frames, Option.map_some']
    rw [ih]; simp

theorem loop_frames_exact (env : Env) (fuel i : Nat) (objs : List RenderObject)
    (cam : Vec3 FExpr) (hobjs : ∀ n, spin n objs = spin n objects) :
    ∃ m, m ≤ fuel ∧
      frames none (loop env fuel i objs cam).trace = (List.range' i m).map frameAt := by
  induction fuel generalizing i objs cam with
  | zero => exact ⟨0, le_refl _, rfl⟩
  | succ n ih =>
    unfold loop
    split
    · refine ⟨0, Nat.zero_le _, ?_⟩
      simp only [emit_trace, frames_skip, Event.inFrame]
      rw [frames_call_waitIdle none env.waitIdle cleanup rfl]
      rfl
    · simp only [emit_trace, frames_skip, Event.inFrame]
      cases hb : env.beginFrame i
      · simp only [call_returned, frames]
        rcases drawAll_frames_cases env i (viewOf (moveCamera i cam)) proj (spin i objs) 0
          (call Event.endFrame (env.endFrame i)
            (loop env n (i + 1) (spin i objs) (moveCamera i cam))) [] with h | h
        · rw [h, List.nil_append, hobjs i, moveCamera_const i cam (vec3 4 3 4)]
          cases he : env.endFrame i
          · obtain ⟨m, hm, hfr⟩ := ih (i + 1) (spin i objects) (moveCamera i (vec3 4 3 4))
              (fun m => spin_spin i m objects)
            refine ⟨m + 1, Nat.succ_le_succ hm, ?_⟩
            simp only [call_returned, frames]
            rw [hfr]
            rfl
          · exact ⟨1, Nat.succ_le_succ (Nat.zero_le _), rfl⟩
          · exact ⟨1, Nat.succ_le_succ (Nat.zero_le _), rfl⟩
        · exact ⟨0, Nat.zero_le _, h⟩
      · exact ⟨0, Nat.zero_le _, rfl⟩
      · exact ⟨0, Nat.zero_le _, rfl⟩

theorem main_frames_exact (env : Env) (fuel : Nat) :
    ∃ m, m ≤ fuel ∧ frames none (main env fuel).trace = (List.range m).map frameAt := by
  unfold main
  simp only [emit_trace, frames_skip, Event.inFrame]
  cases hc : env.construct
  · cases hi : env.init
    · simp only [call_returned, emit_trace, frames_skip, Event.inFrame]
      obtain ⟨m, hm, hfr⟩ := loop_frames_exact env fuel 0 objects (vec3 4 3 4) (fun _ => rfl)
      exact ⟨m, hm, by rw [hfr, List.range_eq_range']⟩
    · exact ⟨0, Nat.zero_le _, rfl⟩
    · exact ⟨0, Nat.zero_le _, rfl⟩
  · exact ⟨0, Nat.zero_le _, rfl⟩
  · exact ⟨0, Nat.zero_le _, rfl⟩

theorem loop_frames_closeAfter (k i : Nat) (objs : List RenderObject) (cam : Vec3 FExpr)
    (hobjs : ∀ n, spin n objs = spin n objects) :
    frames none (loop (Env.closeAfter (i + k)) (k + 1) i objs cam).trace =
      (List.range' i k).map frameAt := by
  induction k generalizing i objs cam with
  | zero =>
    unfold loop
    simp [Env.closeAfter, emit, call, frames, cleanup]
  | succ k ih =>
    unfold loop
    have hclose : (Env.closeAfter (i + (k + 1))).shouldClose i = false := by
      simp [Env.closeAfter]
    have hnext : i + (k + 1) = (i + 1) + k := by omega
    simp only [hclose, Bool.false_eq_true, if_false, emit_trace, frames_skip, Event.inFrame]
    have h1 : (Env.closeAfter (i + (k + 1))).beginFrame i = .returned := rfl
    have h3 : (Env.closeAfter (i + (k + 1))).endFrame i = .returned := rfl
    simp only [h1, call_returned, frames]
    rw [drawAll_frames_returned _ _ _ _ (fun _ => rfl), h3]
    simp only [call_returned, frames, List.nil_append]
    rw [hnext, ih (i + 1) _ _ (fun m => by rw [spin_spin, hobjs m]), hobjs i,
      moveCamera_const i cam (vec3 4 3 4)]
    rfl

end AdvancedExample

/-! ## The claims -/

theorem hello_calls_shape (env : Env) (fuel : Nat) :
    (rendererCalls (HelloVulkan.main env fuel).trace = [] ↔ env.construct ≠ .returned) := by
  unfold HelloVulkan.main
  cases h : env.construct <;> cases h2 : env.init <;>
    simp [call, emit, rendererCalls_cons, Event.facadeCall]

theorem advanced_calls_shape (env : Env) (fuel : Nat) :
    (rendererCalls (AdvancedExample.main env fuel).trace = [] ↔ env.construct ≠ .returned) := by
  unfold AdvancedExample.main
  cases h : env.construct <;> cases h2 : env.init <;>
    simp [call, emit, rendererCalls_cons, Event.facadeCall]

/-- C1: in every execution of HelloVulkan and of AdvancedExample the sequence
of Renderer calls is accepted by the facade state machine from
`Uninitialized`, whatever state a call that throws leaves the facade in.  The
sequence is empty exactly when the constructor throws; otherwise it starts
with `initialize`, which is not called again. -/
theorem samples_follow_facade (afterThrow : FacadeState → Op → FacadeState) (env : Env)
    (fuel : Nat) :
    (accepts afterThrow .Uninitialized
        (rendererCalls (HelloVulkan.main env fuel).trace) = true ∧
      (rendererCalls (HelloVulkan.main env fuel).trace = [] ↔ env.construct ≠ .returned) ∧
      (rendererCalls (HelloVulkan.main env fuel).trace = [] ∨
        ∃ o rest, rendererCalls (HelloVulkan.main env fuel).trace = (Op.init, o) :: rest ∧
          ∀ c ∈ rest, c.1 ≠ Op.init)) ∧
    (accepts afterThrow .Uninitialized
        (rendererCalls (AdvancedExample.main env fuel).trace) = true ∧
      (rendererCalls (AdvancedExample.main env fuel).trace = [] ↔ env.construct ≠ .returned) ∧
      (rendererCalls (AdvancedExample.main env fuel).trace = [] ∨
        ∃ o rest, rendererCalls (AdvancedExample.main env fuel).trace = (Op.init, o) :: rest ∧
          ∀ c ∈ rest, c.1 ≠ Op.init)) :=
  ⟨⟨hello_accepts afterThrow env fuel, hello_calls_shape env fuel,
      accepts_init_once _ (hello_accepts _ env fuel)⟩,
    ⟨advanced_accepts afterThrow env fuel, advanced_calls_shape env fuel,
      accepts_init_once _ (advanced_accepts _ env fuel)⟩⟩

/-- C2: when `renderer.initialize()` throws a `std::exception`, both samples
return `EXIT_FAILURE` from the handler and never call `glfwDestroyWindow` or
`glfwTerminate`: the window is not released on the failure path. -/
theorem failed_initialize_leaves_window :
    ((HelloVulkan.main Env.initFails 1).exit = some .EXIT_FAILURE ∧
      Event.glfwDestroyWindow ∉ (HelloVulkan.main Env.initFails 1).trace ∧
      Event.glfwTerminate ∉ (HelloVulkan.main Env.initFails 1).trace) ∧
    ((AdvancedExample.main Env.initFails 1).exit = some .EXIT_FAILURE ∧
      Event.glfwDestroyWindow ∉ (AdvancedExample.main Env.initFails 1).trace ∧
      Event.glfwTerminate ∉ (AdvancedExample.main Env.initFails 1).trace) := by
  decide

/-- C3: in every execution of either sample, each call of `glfwDestroyWindow`
comes after a call of `renderer.waitIdle()` that returned. -/
theorem destroy_only_after_waitIdle (env : Env) (fuel : Nat) (t : List Event)
    (ht : t = (HelloVulkan.main env fuel).trace ∨ t = (AdvancedExample.main env fuel).trace)
    (pre post : List Event) (h : t = pre ++ Event.glfwDestroyWindow :: post) :
    Event.waitIdle .returned ∈ pre := by
  have hmon : idleBeforeDestroy false t = true := by
    rcases ht with rfl | rfl
    · exact hello_idle env fuel
    · exact advanced_idle env fuel
  rcases idleBeforeDestroy_sound false t hmon pre post h with h1 | h1
  · cases h1
  · exact h1

/-- C3, at the run of HelloVulkan that draws one frame and closes. -/
theorem destroy_only_after_waitIdle_witness :
    (HelloVulkan.main (Env.closeAfter 1) 2).trace =
      (HelloVulkan.main (Env.closeAfter 1) 2).trace.take 15 ++
        Event.glfwDestroyWindow :: [.glfwTerminate, .cout "程序正常退出。"] ∧
    Event.waitIdle .returned ∈ (HelloVulkan.main (Env.closeAfter 1) 2).trace.take 15 :=
  ⟨by rfl, destroy_only_after_waitIdle (Env.closeAfter 1) 2 _ (Or.inl rfl) _ _ (by rfl)⟩

/-- C4: in every execution of either sample, once a Renderer operation
(constructor, `initialize`, `beginFrame`, `draw`, `endFrame`, `waitIdle`) has
thrown, no Renderer operation follows. -/
theorem no_call_after_throw (env : Env) (fuel : Nat) (t : List Event)
    (ht : t = (HelloVulkan.main env fuel).trace ∨ t = (AdvancedExample.main env fuel).trace)
    (pre : List Event) (e : Event) (post : List Event) (h : t = pre ++ e :: post)
    (he : e.threw = true) : ∀ x ∈ post, x.isRendererOp = false := by
  have hmon : quietAfterThrow t = true := by
    rcases ht with rfl | rfl
    · exact hello_quiet env fuel
    · exact advanced_quiet env fuel
  exact quietAfterThrow_sound t hmon pre e post h he

/-- C4, at the run of HelloVulkan whose second frame fails in `draw`. -/
theorem no_call_after_throw_witness :
    (HelloVulkan.main Env.secondDrawFails 9).trace =
      (HelloVulkan.main Env.secondDrawFails 9).trace.take 16 ++
        Event.draw ⟨HelloVulkan.vertices, HelloVulkan.indices, HelloVulkan.ubo 1, none⟩ .threwStd ::
          [.cerr] ∧
    ∀ x ∈ [Event.cerr], x.isRendererOp = false :=
  ⟨by rfl, no_call_after_throw Env.secondDrawFails 9 _ (Or.inl rfl)
    ((HelloVulkan.main Env.secondDrawFails 9).trace.take 16)
    (Event.draw ⟨HelloVulkan.vertices, HelloVulkan.indices, HelloVulkan.ubo 1, none⟩ .threwStd)
    [.cerr] (by rfl) rfl⟩

/-- C5: for every number of slots and every sequence of ring actions, no
uniform write into a slot happens while a submission of that slot has an
unsignaled fence, and the slot of the frame being recorded has no unsignaled
submission. -/
theorem ring_write_after_fence (slots : Nat) (acts : List Ring.Action) (s : Ring.State)
    (h : Ring.run (Ring.init slots) acts = some s) :
    (∀ w ∈ s.writes, w.unsignaled = []) ∧
    ∀ f slot, s.recording = some (f, slot) → ∀ p ∈ s.inFlight, p.2 ≠ slot :=
  Ring.inv_run (Ring.init slots) s acts (Ring.inv_init slots) h

/-- C5, at a run of two slots in which the third frame takes the first slot again. -/
theorem ring_write_after_fence_witness :
    Ring.run (Ring.init 2) Ring.demo =
      some ⟨2, 3, none, [(1, 1), (2, 0)], [⟨0, 0, []⟩, ⟨1, 1, []⟩, ⟨2, 0, []⟩, ⟨2, 0, []⟩]⟩ ∧
    ((∀ w ∈ [(⟨0, 0, []⟩ : Ring.Write), ⟨1, 1, []⟩, ⟨2, 0, []⟩, ⟨2, 0, []⟩],
        w.unsignaled = []) ∧
      ∀ f slot, (none : Option (Nat × Nat)) = some (f, slot) →
        ∀ p ∈ [(1, 1), (2, 0)], p.2 ≠ slot) :=
  ⟨by decide, ring_write_after_fence 2 Ring.demo
    ⟨2, 3, none, [(1, 1), (2, 0)], [⟨0, 0, []⟩, ⟨1, 1, []⟩, ⟨2, 0, []⟩, ⟨2, 0, []⟩]⟩ (by decide)⟩

/-- C6: the frames of AdvancedExample that reach `endFrame` are, in order, the
frames of loop iterations 0, 1, ...; the frame of iteration `k` has one draw
call per render object, four in all, in the order of `objects`, and the call
for an object carries the vertex array, index array and texture path of that
object and the matrix `getModelMatrix` returns for it with the rotation
iteration `k` has assigned, all four with the view and the projection of
iteration `k`.  The frames of HelloVulkan that reach `endFrame` are, in order,
the single draw call of iterations 0, 1, ....  A run in which every call
returns and the window closes after `n` iterations has exactly these `n`
frames. -/
theorem frame_draw_calls (env : Env) (fuel n : Nat) :
    ((∃ m, m ≤ fuel ∧
        frames none (AdvancedExample.main env fuel).trace =
          (List.range m).map (fun k =>
            (AdvancedExample.spin k AdvancedExample.objects).map (fun o =>
              ⟨o.vertices, o.indices,
                ⟨o.getModelMatrix,
                  AdvancedExample.viewOf (AdvancedExample.moveCamera k (vec3 4 3 4)),
                  AdvancedExample.proj⟩,
                some o.texturePath⟩))) ∧
      (∀ f ∈ frames none (AdvancedExample.main env fuel).trace,
        f.length = 4 ∧
        ∃ k view proj, f = (AdvancedExample.spin k AdvancedExample.objects).map (fun o =>
          ⟨o.vertices, o.indices, ⟨o.getModelMatrix, view, proj⟩, some o.texturePath⟩)) ∧
      (∀ k, (AdvancedExample.spin k AdvancedExample.objects).length = 4 ∧
        AdvancedExample.objects.length = 4 ∧
        (AdvancedExample.spin k AdvancedExample.objects).map
            (fun o => (o.position, o.scale, o.texturePath, o.vertices, o.indices)) =
          AdvancedExample.objects.map
            (fun o => (o.position, o.scale, o.texturePath, o.vertices, o.indices)) ∧
        (AdvancedExample.spin k AdvancedExample.objects).map (fun o => o.rotation) =
          [⟨.mul (.time k) (.lit (5/10)), .mul (.time k) (.lit (8/10)),
              .mul (.time k) (.lit (3/10))⟩,
            ⟨.lit 0, .mul (.time k) (.lit (12/10)), .lit 0⟩,
            ⟨.mul (.time k) (.lit (7/10)), .lit 0, .mul (.time k) (.lit (9/10))⟩,
            vec3 0 0 0]) ∧
      frames none (AdvancedExample.main (Env.closeAfter n) (n + 1)).trace =
        (List.range n).map (fun k =>
          (AdvancedExample.spin k AdvancedExample.objects).map (fun o =>
            ⟨o.vertices, o.indices,
              ⟨o.getModelMatrix,
                AdvancedExample.viewOf (AdvancedExample.moveCamera k (vec3 4 3 4)),
                AdvancedExample.proj⟩,
              some o.texturePath⟩))) ∧
    ((∃ m, m ≤ fuel ∧
        frames none (HelloVulkan.main env fuel).trace =
          (List.range m).map (fun k =>
            [⟨HelloVulkan.vertices, HelloVulkan.indices, HelloVulkan.ubo k, none⟩])) ∧
      (∀ f ∈ frames none (HelloVulkan.main env fuel).trace, f.length = 1) ∧
      frames none (HelloVulkan.main (Env.closeAfter n) (n + 1)).trace =
        (List.range n).map (fun k =>
          [⟨HelloVulkan.vertices, HelloVulkan.indices, HelloVulkan.ubo k, none⟩])) := by
  refine ⟨⟨AdvancedExample.main_frames_exact env fuel, ?_, fun k => ⟨rfl, rfl, rfl, rfl⟩, ?_⟩,
    ⟨hello_frames_exact env fuel, ?_, ?_⟩⟩
  · intro f hf
    obtain ⟨k, rfl⟩ := AdvancedExample.main_frames env fuel f hf
    exact ⟨rfl, k, _, _, rfl⟩
  · unfold AdvancedExample.main
    simp only [emit_trace, frames_skip, Event.inFrame]
    have h := AdvancedExample.loop_frames_closeAfter n 0 AdvancedExample.objects (vec3 4 3 4)
      (fun _ => rfl)
    rw [Nat.zero_add] at h
    rw [List.range_eq_range']
    exact h
  · intro f hf
    obtain ⟨k, rfl⟩ := hello_frames env fuel f hf
    rfl
  · unfold HelloVulkan.main
    simp only [emit_trace, frames_skip, Event.inFrame]
    have h := hello_loop_frames_closeAfter n 0
    rw [Nat.zero_add] at h
    rw [List.range_eq_range']
    exact h

/-- C6, at the runs that draw two frames and close: each has exactly the
frames of iterations 0 and 1. -/
theorem frame_draw_calls_witness :
    (frames none (AdvancedExample.main (Env.closeAfter 2) (2 + 1)).trace =
        (List.range 2).map (fun k =>
          (AdvancedExample.spin k AdvancedExample.objects).map (fun o =>
            ⟨o.vertices, o.indices,
              ⟨o.getModelMatrix,
                AdvancedExample.viewOf (AdvancedExample.moveCamera k (vec3 4 3 4)),
                AdvancedExample.proj⟩,
              some o.texturePath⟩)) ∧
      (frames none (AdvancedExample.main (Env.closeAfter 2) (2 + 1)).trace).map List.length =
        [4, 4]) ∧
    (frames none (HelloVulkan.main (Env.closeAfter 2) (2 + 1)).trace =
        (List.range 2).map (fun k =>
          [⟨HelloVulkan.vertices, HelloVulkan.indices, HelloVulkan.ubo k, none⟩]) ∧
      (frames none (HelloVulkan.main (Env.closeAfter 2) (2 + 1)).trace).map List.length =
        [1, 1]) :=
  ⟨⟨(frame_draw_calls (Env.closeAfter 2) 3 2).1.2.2.2, by decide⟩,
    ⟨(frame_draw_calls (Env.closeAfter 2) 3 2).2.2.2, by decide⟩⟩

/-- C7: every render object of AdvancedExample is declared with the empty
texture path, and the four draw calls of a frame pass the empty string. -/
theorem advanced_passes_no_texture :
    AdvancedExample.objects.map (fun o => o.texturePath) = ["", "", "", ""] ∧
    (frames none (AdvancedExample.main (Env.closeAfter 1) 2).trace).map
      (fun f => f.map (fun d => d.texturePath)) = [[some "", some "", some "", some ""]] := by
  decide

/-- C9: in each mesh the samples pass to `Renderer::draw` every index is below
the length of the paired vertex array and the number of indices is a positive
multiple of three, so every index finds its vertex; the render objects of
AdvancedExample use only such meshes. -/
theorem sample_meshes_well_indexed :
    (wellIndexed HelloVulkan.vertices HelloVulkan.indices ∧
      ∀ i ∈ HelloVulkan.indices, (position HelloVulkan.vertices i).isSome = true) ∧
    (wellIndexed AdvancedExample.cubeVertices AdvancedExample.cubeIndices ∧
      ∀ i ∈ AdvancedExample.cubeIndices,
        (position AdvancedExample.cubeVertices i).isSome = true) ∧
    (wellIndexed AdvancedExample.planeVertices AdvancedExample.planeIndices ∧
      ∀ i ∈ AdvancedExample.planeIndices,
        (position AdvancedExample.planeVertices i).isSome = true) ∧
    ∀ o ∈ AdvancedExample.objects, wellIndexed o.vertices o.indices := by
  refine ⟨⟨by decide, by decide⟩, ⟨by decide, by decide⟩, ⟨by decide, by decide⟩, ?_⟩
  intro o ho
  simp only [AdvancedExample.objects, List.mem_cons, List.mem_singleton, List.not_mem_nil,
    or_false] at ho
  rcases ho with rfl | rfl | rfl | rfl <;> decide

/-- C10: the twelve triangles of the cube, in the order of `cubeIndices`, with
the dot product of normal and centroid: the triangles of the front, left, top
and bottom faces point away from the centre (1/2), those of the back face and
of the right face point towards it (-1/2). -/
theorem cube_back_and_right_faces_inward :
    (triangles AdvancedExample.cubeIndices).map (outwardness AdvancedExample.cubeVertices) =
      [some (1/2), some (1/2), some (-1/2), some (-1/2), some (1/2), some (1/2),
        some (-1/2), some (-1/2), some (1/2), some (1/2), some (1/2), some (1/2)] := by
  simp [triangles, AdvancedExample.cubeIndices, outwardness, position,
    AdvancedExample.cubeVertices, triNormal, triCentroid, Vec3.sub, Vec3.cross, Vec3.dot]
  norm_num

end VkLab
